import Mathlib

/-
  Verification of the ipswich-town-db reconciliation pipeline.

  Shallow embedding of the Python sources:
    src/api/football_data_client.py   (FootballDataClient)
    src/api/thesportsdb_client.py     (TheSportsDBClient)
    src/database/db_manager.py        (DatabaseManager)
    src/scripts/fetch_current_season.py (CurrentSeasonFetcher)
    src/scripts/daily_update.py       (DailyUpdater)

  Python dictionaries with possibly-absent or null values are embedded as
  structures with Option fields; where the code uses dict.get (absent and
  null both read back as None) the two cases are flattened into a single
  none.  Where the code uses d[key] indexing (raising KeyError on an absent
  key while passing a null value through), the field is Option (Option _):
  the outer none is an absent key, the inner none a null value.
  Machine integers do not overflow in any of the embedded code paths
  (scores, years, row ids), so Int/Nat are used directly.
-/

namespace IpswichDB

/-! ## FootballDataClient._map_status (src/api/football_data_client.py, lines 242-256) -/

/-- The literal status_map dictionary of FootballDataClient._map_status. -/
def statusMap : List (String × String) :=
  [("SCHEDULED", "scheduled"),
   ("TIMED", "scheduled"),
   ("IN_PLAY", "live"),
   ("PAUSED", "live"),
   ("FINISHED", "finished"),
   ("POSTPONED", "postponed"),
   ("CANCELLED", "cancelled"),
   ("SUSPENDED", "postponed"),
   ("AWARDED", "finished")]

/-- FootballDataClient._map_status: status_map.get(status, 'scheduled'). -/
def mapStatus (s : String) : String :=
  match statusMap.find? (fun p => p.1 == s) with
  | some p => p.2
  | none => "scheduled"

/-- The status argument can be None in Python (match_data.get('status'));
dict.get on a key absent from status_map returns the default 'scheduled'. -/
def mapStatusOpt : Option String → String
  | some s => mapStatus s
  | none => "scheduled"

/-- The five canonical statuses of the pipeline. -/
def canonicalStatuses : List String :=
  ["scheduled", "live", "finished", "postponed", "cancelled"]

/-- The documented Football-Data.org status vocabulary. -/
def fdVocabulary : List String :=
  ["SCHEDULED", "TIMED", "IN_PLAY", "PAUSED", "FINISHED",
   "POSTPONED", "CANCELLED", "SUSPENDED", "AWARDED"]

theorem mapStatus_mem_canonical (s : String) : mapStatus s ∈ canonicalStatuses := by
  unfold mapStatus
  cases h : statusMap.find? (fun p => p.1 == s) with
  | none => simp [canonicalStatuses]
  | some p =>
      have hp : p ∈ statusMap := List.mem_of_find?_eq_some h
      fin_cases hp <;> simp [canonicalStatuses]

/-! ## FootballDataClient._extract_season (lines 226-240) -/

/-- FootballDataClient._extract_season, applied to the already-defaulted
start_date and end_date strings (season_data.get('startDate', '') and
season_data.get('endDate', '')).  Python truthiness on a string is
non-emptiness; s[:4] is String.take 4 and s[2:] is String.drop 2. -/
def extractSeason (startDate endDate : String) : String :=
  if startDate ≠ "" ∧ endDate ≠ "" then
    let startYear := startDate.take 4
    let endYear := endDate.take 4
    if startYear ≠ endYear then
      startYear ++ "/" ++ endYear.drop 2
    else
      startYear
  else
    ""

/-- The calendar year of an ISO-formatted (YYYY-MM-DD) date string is its
first four characters; the source compares season years this way. -/
def dateYear (d : String) : String := d.take 4

/-! ## Python string helpers

The sources only ever split on a single-character separator and convert
plain decimal numerals, so those two Python operations are embedded
directly over the character list of the string. -/

/-- Helper for splitChar: cur holds the characters of the current piece in
reverse. -/
def splitCharAux (sep : Char) : List Char → List Char → List String
  | [], cur => [String.mk cur.reverse]
  | c :: cs, cur =>
    if c == sep then String.mk cur.reverse :: splitCharAux sep cs []
    else splitCharAux sep cs (c :: cur)

/-- Python str.split(sep) for a one-character separator: always a
non-empty list, with empty pieces kept (so the split of the empty string
is a list holding one empty string, as in Python). -/
def splitChar (sep : Char) (s : String) : List String :=
  splitCharAux sep s.data []

/-- Accumulate the value of a digit run; None on a non-digit. -/
def parseNatAux : List Char → Nat → Option Nat
  | [], acc => some acc
  | c :: cs, acc =>
    if c.isDigit then parseNatAux cs (acc * 10 + (c.toNat - '0'.toNat))
    else none

/-- Python int() on a non-negative decimal numeral: one or more digits. -/
def pyParseNat (s : String) : Option Nat :=
  match s.data with
  | [] => none
  | cs => parseNatAux cs 0

/-- Python int() on a decimal numeral with an optional leading minus.
Python additionally strips surrounding whitespace and accepts a plus sign
or underscores; the provider-supplied numerals fed to the conversions in
this codebase are plain decimal. -/
def pyParseInt (s : String) : Option Int :=
  match s.data with
  | [] => none
  | '-' :: cs =>
    match cs with
    | [] => none
    | _ => (parseNatAux cs 0).map (fun n => -(n : Int))
  | cs => (parseNatAux cs 0).map (fun n => (n : Int))

/-! ## TheSportsDBClient value parsing (src/api/thesportsdb_client.py) -/

/-- TheSportsDBClient._parse_score (lines 167-175): None and the empty
string give None; otherwise int(score), with a failed conversion giving
None. -/
def tsdbParseScore : Option String → Option Int
  | none => none
  | some s => if s = "" then none else pyParseInt s

/-- TheSportsDBClient._parse_int (lines 177-185): same logic as
_parse_score. -/
def tsdbParseInt : Option String → Option Int
  | none => none
  | some s => if s = "" then none else pyParseInt s

/-! ## Date parsing for TheSportsDBClient._determine_status

datetime.strptime(s, ...) parses a YYYY-MM-DD date, validating month and
day ranges (including leap days), and raises ValueError otherwise.  A
parsed date is embedded as the ordinal y * 10000 + m * 100 + d, whose Nat
order agrees with calendar order because m ≤ 12 and d ≤ 31. -/

/-- Gregorian leap-year test, as implemented by Python's datetime. -/
def isLeapYear (y : Nat) : Bool :=
  (y % 4 == 0 && y % 100 != 0) || y % 400 == 0

/-- Number of days in a month, as validated by datetime.strptime. -/
def daysInMonth (y m : Nat) : Nat :=
  if m == 2 then (if isLeapYear y then 29 else 28)
  else if m == 4 || m == 6 || m == 9 || m == 11 then 30
  else 31

/-- Parse a YYYY-MM-DD date string to its ordinal, None on a malformed or
out-of-range date (strptime raising ValueError). -/
def parseDate (s : String) : Option Nat :=
  match splitChar '-' s with
  | [ys, ms, ds] =>
    match pyParseNat ys, pyParseNat ms, pyParseNat ds with
    | some y, some m, some d =>
      if ys.length ≤ 4 ∧ ms.length ≤ 2 ∧ ds.length ≤ 2 ∧
         1 ≤ m ∧ m ≤ 12 ∧ 1 ≤ d ∧ d ≤ daysInMonth y m then
        some (y * 10000 + m * 100 + d)
      else
        none
    | _, _, _ => none
  | _ => none

/-! ## TheSportsDB raw event records and parsing -/

/-- A raw TheSportsDB event dictionary, with the fields read by
TheSportsDBClient._parse_event and _determine_status.  Every field is read
with event.get, so an absent key and a null value are both none.
The card-count fields (intHomeYellowCards and friends) are written to the
transient detailed record but never read by any downstream code and are
omitted. -/
structure Event where
  idEvent : Option String := none
  dateEvent : Option String := none
  strTime : Option String := none
  strHomeTeam : Option String := none
  strAwayTeam : Option String := none
  intHomeScore : Option String := none
  intAwayScore : Option String := none
  strLeague : Option String := none
  strSeason : Option String := none
  strVenue : Option String := none
  intRound : Option String := none
  intHomeScoreHT : Option String := none
  intAwayScoreHT : Option String := none
  intHomeShots : Option String := none
  intAwayShots : Option String := none
  intHomePossession : Option String := none
  intAwayPossession : Option String := none
  strReferee : Option String := none
  intSpectators : Option String := none
  deriving Repr, DecidableEq

/-- TheSportsDBClient._determine_status (lines 187-206), with today the
ordinal of datetime.now().date().  The raw intHomeScore and intAwayScore
fields are compared against None directly (an empty string counts as
present); the date guard is Python truthiness (non-None and non-empty),
and an unparseable date falls through to 'scheduled'. -/
def determineStatus (today : Nat) (e : Event) : String :=
  if e.intHomeScore.isSome ∧ e.intAwayScore.isSome then
    "finished"
  else
    match e.dateEvent with
    | some ds =>
      if ds ≠ "" then
        match parseDate ds with
        | some d => if d < today then "finished" else "scheduled"
        | none => "scheduled"
      else
        "scheduled"
    | none => "scheduled"

/-- The round value in the canonical match record: an int matchday from
Football-Data.org, a raw string from TheSportsDB. -/
inductive RoundVal where
  | rint (n : Int)
  | rstr (s : String)
  deriving Repr, DecidableEq

/-- Python truthiness of a round value: 0 and the empty string are falsy. -/
def RoundVal.truthy : RoundVal → Bool
  | rint n => n != 0
  | rstr s => s != ""

/-- Python str() of a round value. -/
def RoundVal.toStr : RoundVal → String
  | rint n => toString n
  | rstr s => s

/-- The canonical (normalized) match record built by either adapter:
the dictionary produced by _parse_event or _parse_match.  Keys that a
given code path does not add are none (the consumer reads every key with
dict.get). -/
structure MatchRecord where
  api_id : Option String := none
  match_date : Option String := none
  kick_off_time : Option String := none
  home_team : Option String := none
  away_team : Option String := none
  home_team_id : Option String := none
  away_team_id : Option String := none
  home_score : Option Int := none
  away_score : Option Int := none
  home_score_ht : Option Int := none
  away_score_ht : Option Int := none
  competition : Option String := none
  season : Option String := none
  venue : Option String := none
  round : Option RoundVal := none
  status : String := "scheduled"
  referee : Option String := none
  attendance : Option Int := none
  home_possession : Option Int := none
  away_possession : Option Int := none
  home_shots : Option Int := none
  away_shots : Option Int := none
  deriving Repr, DecidableEq

/-- TheSportsDBClient._parse_event (lines 108-148).  The body reads every
raw field with event.get and the helper parsers swallow their own
exceptions, so the surrounding try/except never fires and the function
always returns a record. -/
def parseEvent (today : Nat) (e : Event) (detailed : Bool := false) :
    Option MatchRecord :=
  let base : MatchRecord :=
    { api_id := e.idEvent
      match_date := e.dateEvent
      kick_off_time := e.strTime
      home_team := e.strHomeTeam
      away_team := e.strAwayTeam
      home_score := tsdbParseScore e.intHomeScore
      away_score := tsdbParseScore e.intAwayScore
      competition := e.strLeague
      season := e.strSeason
      venue := e.strVenue
      round := e.intRound.map RoundVal.rstr
      status := determineStatus today e }
  if detailed then
    some { base with
      home_score_ht := tsdbParseScore e.intHomeScoreHT
      away_score_ht := tsdbParseScore e.intAwayScoreHT
      home_shots := tsdbParseInt e.intHomeShots
      away_shots := tsdbParseInt e.intAwayShots
      home_possession := tsdbParseInt e.intHomePossession
      away_possession := tsdbParseInt e.intAwayPossession
      referee := e.strReferee
      attendance := tsdbParseInt e.intSpectators }
  else
    some base

/-! ## Football-Data.org raw match records and parsing
(src/api/football_data_client.py, _parse_match, lines 169-209) -/

/-- The nested home/away team object; name and id are read with ['name']
and ['id'] indexing, so an absent key raises KeyError (outer none) while a
null value passes through (inner none). -/
structure FDTeamObj where
  name : Option (Option String) := none
  id : Option (Option Int) := none
  deriving Repr, DecidableEq

/-- The nested competition object; name is read with ['name'] indexing. -/
structure FDComp where
  name : Option (Option String) := none
  deriving Repr, DecidableEq

/-- The nested season object; startDate and endDate are read with .get and
a '' default, so absent, null and empty all behave as ''. -/
structure FDSeasonObj where
  startDate : Option String := none
  endDate : Option String := none
  deriving Repr, DecidableEq

/-- The nested score object; every field is read through chained .get
calls with empty-dictionary defaults, so all missing levels flatten to
none. -/
structure FDScore where
  fullTimeHome : Option Int := none
  fullTimeAway : Option Int := none
  halfTimeHome : Option Int := none
  halfTimeAway : Option Int := none
  deriving Repr, DecidableEq

/-- A raw Football-Data.org match dictionary, with the fields read by
FootballDataClient._parse_match.  homeTeam, awayTeam and competition are
accessed by indexing (KeyError on absence aborts the parse); season is
Option (Option _) because the season read defaults to an empty dictionary
on an absent key but passes a null value through to an attribute access
that raises; the remaining fields are plain .get reads. -/
structure FDMatchRaw where
  id : Option Int := none
  utcDate : Option String := none
  homeTeam : Option FDTeamObj := none
  awayTeam : Option FDTeamObj := none
  competition : Option FDComp := none
  season : Option (Option FDSeasonObj) := none
  status : Option String := none
  matchday : Option Int := none
  venue : Option String := none
  score : Option FDScore := none
  referees : Option (List (Option String)) := none
  attendance : Option Int := none
  deriving Repr, DecidableEq

/-- Python str() applied to a nullable int: str(None) is the string
"None". -/
def pyStrOptInt : Option Int → String
  | some n => toString n
  | none => "None"

/-- The season dictionary as _parse_match sees it: an absent season key
defaults to the empty dictionary, a null value raises (AttributeError on
.get) and aborts the parse. -/
def fdSeasonOf : Option (Option FDSeasonObj) → Option (Option FDSeasonObj)
  | none => some none
  | some none => none
  | some (some o) => some (some o)

/-- _extract_season applied to a raw match's season object (with the ''
defaults of the .get reads). -/
def seasonLabel : Option FDSeasonObj → String
  | none => extractSeason "" ""
  | some o => extractSeason (o.startDate.getD "") (o.endDate.getD "")

/-- The match_date and kick_off_time pair computed from utcDate.
A falsy utcDate (None or '') gives (None, None); otherwise the date is
the text before the first 'T' and the kickoff is the second split
component up to its first 'Z' — an utcDate without a 'T' raises
IndexError, aborting the parse. -/
def fdDateKick : Option String → Option (Option String × Option String)
  | none => some (none, none)
  | some u =>
    if u = "" then some (none, none)
    else
      let parts := splitChar 'T' u
      match parts[1]? with
      | none => none
      | some p1 => some (some (parts.headD ""), some ((splitChar 'Z' p1).headD ""))

/-- FootballDataClient._parse_match (lines 169-209).  Any KeyError,
AttributeError or IndexError in the body is caught by the surrounding
try/except and turns into None (the record is dropped). -/
def parseMatch (raw : FDMatchRaw) (detailed : Bool := false) :
    Option MatchRecord :=
  match raw.homeTeam with
  | none => none
  | some ht =>
    match ht.name with
    | none => none
    | some htName =>
      match raw.awayTeam with
      | none => none
      | some awt =>
        match awt.name with
        | none => none
        | some awtName =>
          match ht.id with
          | none => none
          | some htId =>
            match awt.id with
            | none => none
            | some awtId =>
              match raw.competition with
              | none => none
              | some comp =>
                match comp.name with
                | none => none
                | some compName =>
                  match fdSeasonOf raw.season with
                  | none => none
                  | some sObj =>
                    match fdDateKick raw.utcDate with
                    | none => none
                    | some dk =>
                      let base : MatchRecord :=
                        { api_id := some (pyStrOptInt raw.id)
                          match_date := dk.1
                          kick_off_time := dk.2
                          home_team := htName
                          away_team := awtName
                          home_team_id := some (pyStrOptInt htId)
                          away_team_id := some (pyStrOptInt awtId)
                          competition := compName
                          season := some (seasonLabel sObj)
                          status := mapStatusOpt raw.status
                          round := raw.matchday.map RoundVal.rint
                          venue := raw.venue }
                      let withScore : MatchRecord :=
                        match raw.score with
                        | some sc =>
                          { base with
                              home_score := sc.fullTimeHome
                              away_score := sc.fullTimeAway
                              home_score_ht := sc.halfTimeHome
                              away_score_ht := sc.halfTimeAway }
                        | none => base
                      if detailed then
                        let withRef : MatchRecord :=
                          match raw.referees with
                          | some (r0 :: _) => { withScore with referee := r0 }
                          | _ => withScore
                        some { withRef with attendance := raw.attendance }
                      else
                        some withScore

/-! ## Rate-limited request discipline
(FootballDataClient._make_request, lines 40-62) -/

/-- The transport-level outcome of one HTTP attempt. -/
inductive HttpResp where
  | ok (v : Nat)
  | throttle
  | httpErr
  | netErr
  deriving Repr, DecidableEq

/-- FootballDataClient._make_request, driven by the trace of upstream
responses it would receive on successive attempts.  A 2xx response
returns its body; a 429 sleeps 60 seconds and recursively re-issues the
identical request; any other HTTP error or a transport exception returns
None.  The second component is the total cooldown time slept.  An
exhausted trace (no further upstream response) is a transport exception. -/
def makeRequest : List HttpResp → Option Nat × Nat
  | [] => (none, 0)
  | .ok v :: _ => (some v, 0)
  | .throttle :: rest =>
    let r := makeRequest rest
    (r.1, 60 + r.2)
  | .httpErr :: _ => (none, 0)
  | .netErr :: _ => (none, 0)

/-- Number of HTTP attempts _make_request issues on a given trace. -/
def requestAttempts : List HttpResp → Nat
  | [] => 0
  | .throttle :: rest => 1 + requestAttempts rest
  | _ :: _ => 1

/-! ## TheSportsDBClient.get_last_matches / get_next_matches
(src/api/thesportsdb_client.py, lines 51-81) -/

/-- The JSON body answering a team_events (or team_next_events) request:
the relevant key may be absent (outer none) or null (inner none). -/
structure TsdbEventsResp where
  events : Option (Option (List Event)) := none
  deriving Repr

/-- Common body of get_last_matches and get_next_matches, applied to the
optional response (None when the HTTP request failed) already projected
onto the relevant key ('results' for last, 'events' for next): an absent
response or key gives [], a null list is defaulted to [] by the "or"
idiom, and the first count events are each run through _parse_event with
parse failures dropped. -/
def collectMatches (today : Nat) (resp : Option TsdbEventsResp)
    (count : Nat) : List MatchRecord :=
  match resp with
  | none => []
  | some d =>
    match d.events with
    | none => []
    | some none => []
    | some (some evs) => (evs.take count).filterMap (fun e => parseEvent today e)

/-- TheSportsDBClient.get_last_matches (lines 51-65). -/
def getLastMatches (today : Nat) (resp : Option TsdbEventsResp)
    (count : Nat) : List MatchRecord :=
  collectMatches today resp count

/-- TheSportsDBClient.get_next_matches (lines 67-81), identical except for
the endpoint and the response key. -/
def getNextMatches (today : Nat) (resp : Option TsdbEventsResp)
    (count : Nat) : List MatchRecord :=
  collectMatches today resp count

/-! ## The persisted store (src/database/db_manager.py)

Each DatabaseManager call opens its own connection and commits or rolls
back independently, so the store is embedded as a value threaded through
the calls; a failing statement leaves the store exactly as it was.
Row ids come from per-table serial sequences; updated_at timestamps are
drawn from a logical clock incremented on every write. -/

structure SeasonRow where
  id : Nat
  season_name : String
  start_date : String
  end_date : String
  deriving Repr, DecidableEq

/-- A teams row restricted to the columns the match pipeline writes:
CurrentSeasonFetcher._store_match calls add_team(name) with no keyword
arguments, so only team_name and the 'England' country default are
supplied. -/
structure TeamRow where
  id : Nat
  team_name : String
  country : String
  deriving Repr, DecidableEq

structure CompRow where
  id : Nat
  name : String
  deriving Repr, DecidableEq

structure MatchRow where
  id : Nat
  season_id : Option Nat
  competition_id : Option Nat
  match_date : Option String
  kick_off_time : Option String
  home_team_id : Option Nat
  away_team_id : Option Nat
  home_score : Option Int
  away_score : Option Int
  half_time_home_score : Option Int
  half_time_away_score : Option Int
  venue : Option String
  attendance : Option Int
  referee : Option String
  match_status : String
  match_round : Option String
  api_id_thesportsdb : Option String
  api_id_football_data : Option String
  notes : Option String
  updated_at : Nat
  deriving Repr, DecidableEq

/-- A match_statistics row restricted to the four columns _store_match
supplies and the conflict clause of add_match_statistics updates. -/
structure StatsRow where
  match_id : Nat
  ipswich_possession : Option Int
  opposition_possession : Option Int
  ipswich_shots : Option Int
  opposition_shots : Option Int
  updated_at : Nat
  deriving Repr, DecidableEq

structure DB where
  seasons : List SeasonRow
  teams : List TeamRow
  competitions : List CompRow
  matchRows : List MatchRow
  stats : List StatsRow
  seasonSeq : Nat
  teamSeq : Nat
  matchSeq : Nat
  clock : Nat
  deriving Repr, DecidableEq

/-- DatabaseManager.get_season_id (lines 82-86). -/
def getSeasonId (db : DB) (name : String) : Option Nat :=
  (db.seasons.find? (fun r => r.season_name == name)).map (·.id)

/-- DatabaseManager.get_team_id (lines 133-137). -/
def getTeamId (db : DB) (name : String) : Option Nat :=
  (db.teams.find? (fun r => r.team_name == name)).map (·.id)

/-- DatabaseManager.get_competition_id (lines 139-143). -/
def getCompetitionId (db : DB) (name : String) : Option Nat :=
  (db.competitions.find? (fun r => r.name == name)).map (·.id)

/-- DatabaseManager.add_season (lines 68-80): INSERT with ON CONFLICT on
the season_name natural key, updating the dates; returns the row id. -/
def addSeason (db : DB) (name startDate endDate : String) : DB × Nat :=
  match db.seasons.find? (fun r => r.season_name == name) with
  | some r =>
    ({ db with
        seasons := db.seasons.map (fun q =>
          if q.season_name == name then
            { q with start_date := startDate, end_date := endDate }
          else q)
        clock := db.clock + 1 }, r.id)
  | none =>
    ({ db with
        seasons := db.seasons ++
          [{ id := db.seasonSeq, season_name := name,
             start_date := startDate, end_date := endDate }]
        seasonSeq := db.seasonSeq + 1
        clock := db.clock + 1 }, db.seasonSeq)

/-- DatabaseManager.add_team (lines 89-131) as called by _store_match,
which passes only the name: the country keyword defaults to 'England', so
the statement is an INSERT with ON CONFLICT on the team_name natural key
updating country. -/
def addTeam (db : DB) (name : String) : DB × Nat :=
  match db.teams.find? (fun r => r.team_name == name) with
  | some r =>
    ({ db with
        teams := db.teams.map (fun q =>
          if q.team_name == name then { q with country := "England" } else q)
        clock := db.clock + 1 }, r.id)
  | none =>
    ({ db with
        teams := db.teams ++
          [{ id := db.teamSeq, team_name := name, country := "England" }]
        teamSeq := db.teamSeq + 1
        clock := db.clock + 1 }, db.teamSeq)

/-- The values tuple of DatabaseManager.add_match, i.e. the db_match_data
dictionary assembled by _store_match. -/
structure NewMatch where
  season_id : Option Nat := none
  competition_id : Option Nat := none
  match_date : Option String := none
  kick_off_time : Option String := none
  home_team_id : Option Nat := none
  away_team_id : Option Nat := none
  home_score : Option Int := none
  away_score : Option Int := none
  half_time_home_score : Option Int := none
  half_time_away_score : Option Int := none
  venue : Option String := none
  attendance : Option Int := none
  referee : Option String := none
  match_status : String := "scheduled"
  match_round : Option String := none
  api_id_thesportsdb : Option String := none
  api_id_football_data : Option String := none
  notes : Option String := none
  deriving Repr, DecidableEq

/-- Modelled from the spec: schema.sql (read by create_database.py) is not
under src, so the uniqueness constraints of the matches table are taken
from spec sections 3 and 6 — natural-key uniqueness on each provider
identifier column and on the fallback composite (season, competition,
date, home team, away team) — with SQL null semantics: a null column never
collides, so two rows may both hold null in a unique column.  This
predicate says an INSERT of d would violate one of those constraints
against an existing row r. -/
def violatesMatchKey (r : MatchRow) (d : NewMatch) : Bool :=
  (d.api_id_thesportsdb.isSome && r.api_id_thesportsdb == d.api_id_thesportsdb) ||
  (d.api_id_football_data.isSome && r.api_id_football_data == d.api_id_football_data) ||
  (d.season_id.isSome && r.season_id == d.season_id &&
   d.competition_id.isSome && r.competition_id == d.competition_id &&
   d.match_date.isSome && r.match_date == d.match_date &&
   d.home_team_id.isSome && r.home_team_id == d.home_team_id &&
   d.away_team_id.isSome && r.away_team_id == d.away_team_id)

/-- The row a successful add_match INSERT creates: the values tuple with
the id drawn from the serial sequence and updated_at from the clock. -/
def mkMatchRow (db : DB) (d : NewMatch) : MatchRow :=
  { id := db.matchSeq
    season_id := d.season_id
    competition_id := d.competition_id
    match_date := d.match_date
    kick_off_time := d.kick_off_time
    home_team_id := d.home_team_id
    away_team_id := d.away_team_id
    home_score := d.home_score
    away_score := d.away_score
    half_time_home_score := d.half_time_home_score
    half_time_away_score := d.half_time_away_score
    venue := d.venue
    attendance := d.attendance
    referee := d.referee
    match_status := d.match_status
    match_round := d.match_round
    api_id_thesportsdb := d.api_id_thesportsdb
    api_id_football_data := d.api_id_football_data
    notes := d.notes
    updated_at := db.clock }

/-- DatabaseManager.add_match (lines 146-191).  The INSERT never supplies
the id column, which is filled from the serial sequence, so the ON
CONFLICT (id) arbiter can never fire on a well-formed store (every
existing id is below the sequence value); it is embedded faithfully all
the same.  A violation of one of the (spec-modelled) natural-key unique
constraints is not covered by the ON CONFLICT (id) arbiter, so the
statement raises, the transaction rolls back, and the store is unchanged:
that outcome is none. -/
def addMatch (db : DB) (d : NewMatch) : Option (DB × Nat) :=
  let newId := db.matchSeq
  if (db.matchRows.find? (fun r => r.id == newId)).isSome then
    -- ON CONFLICT (id) DO UPDATE SET home_score, away_score,
    -- match_status, attendance, updated_at
    some ({ db with
        matchRows := db.matchRows.map (fun r =>
          if r.id == newId then
            { r with
                home_score := d.home_score
                away_score := d.away_score
                match_status := d.match_status
                attendance := d.attendance
                updated_at := db.clock }
          else r)
        clock := db.clock + 1 }, newId)
  else if db.matchRows.any (fun r => violatesMatchKey r d) then
    none
  else
    some ({ db with
        matchRows := db.matchRows ++ [mkMatchRow db d]
        matchSeq := newId + 1
        clock := db.clock + 1 }, newId)

/-- DatabaseManager.update_match_score (lines 193-203): UPDATE of
home_score, away_score, match_status and updated_at on the row with the
given id. -/
def updateMatchScore (db : DB) (matchId : Nat) (homeScore awayScore : Int)
    (status : String) : DB :=
  { db with
      matchRows := db.matchRows.map (fun r =>
        if r.id == matchId then
          { r with
              home_score := some homeScore
              away_score := some awayScore
              match_status := status
              updated_at := db.clock }
        else r)
      clock := db.clock + 1 }

/-- DatabaseManager.add_match_statistics (lines 264-306), restricted to
the four columns the pipeline supplies: INSERT with ON CONFLICT on
match_id updating possession and shots. -/
def addMatchStatistics (db : DB) (matchId : Nat)
    (ipPoss opPoss ipShots opShots : Option Int) : DB :=
  match db.stats.find? (fun r => r.match_id == matchId) with
  | some _ =>
    { db with
        stats := db.stats.map (fun r =>
          if r.match_id == matchId then
            { r with
                ipswich_possession := ipPoss
                opposition_possession := opPoss
                ipswich_shots := ipShots
                opposition_shots := opShots
                updated_at := db.clock }
          else r)
        clock := db.clock + 1 }
  | none =>
    { db with
        stats := db.stats ++
          [{ match_id := matchId
             ipswich_possession := ipPoss
             opposition_possession := opPoss
             ipswich_shots := ipShots
             opposition_shots := opShots
             updated_at := db.clock }]
        clock := db.clock + 1 }

/-! ## CurrentSeasonFetcher._store_match
(src/scripts/fetch_current_season.py, lines 124-219) -/

/-- Which adapter produced a record (the source argument of
_store_match). -/
inductive Source where
  | thesportsdb
  | football_data
  deriving Repr, DecidableEq

/-- int(season_name.split('/')[0]): None when int() raises ValueError. -/
def parseSeasonStartYear (sname : String) : Option Int :=
  pyParseInt ((splitChar '/' sname).headD "")

/-- Python truthiness of a nullable int: None and 0 are falsy. -/
def truthyOptInt : Option Int → Bool
  | some n => n != 0
  | none => false

/-- The match_round value _store_match computes: str(round) when round is
truthy, else None. -/
def roundToDb : Option RoundVal → Option String
  | some rv => if rv.truthy then some rv.toStr else none
  | none => none

/-- The db_match_data dictionary _store_match passes to add_match, given
the resolved season, competition and team row ids.  The provider-specific
identifier column is set (possibly to null) only for the record's own
source. -/
def toNewMatch (m : MatchRecord) (sid cid hid aid : Nat) (src : Source) :
    NewMatch :=
  { season_id := some sid
    competition_id := some cid
    match_date := m.match_date
    kick_off_time := m.kick_off_time
    home_team_id := some hid
    away_team_id := some aid
    home_score := m.home_score
    away_score := m.away_score
    half_time_home_score := m.home_score_ht
    half_time_away_score := m.away_score_ht
    venue := m.venue
    attendance := m.attendance
    referee := m.referee
    match_status := m.status
    match_round := roundToDb m.round
    api_id_thesportsdb :=
      match src with
      | .thesportsdb => m.api_id
      | .football_data => none
    api_id_football_data :=
      match src with
      | .thesportsdb => none
      | .football_data => m.api_id
    notes := none }

/-- The get-or-create team step of _store_match (lines 157-163). -/
def getOrAddTeam (db : DB) (name : String) : DB × Nat :=
  match getTeamId db name with
  | some i => (db, i)
  | none => addTeam db name

/-- The tail of _store_match after season resolution (lines 140-216):
competition lookup (skip with a warning when unresolved), team
get-or-create, add_match, and the statistics write when home_possession is
truthy.  A raised statement (the add_match natural-key violation) is
caught by the surrounding try/except, keeping all writes already committed
on their own connections. -/
def storeMatchResolved (db1 : DB) (m : MatchRecord) (src : Source)
    (sid : Nat) : DB :=
  match m.competition with
  | none => db1
  | some cname =>
    match getCompetitionId db1 cname with
    | none => db1
    | some cid =>
      match m.home_team, m.away_team with
      | some ht, some awt =>
        if ht ≠ "" ∧ awt ≠ "" then
          let p2 := getOrAddTeam db1 ht
          let p3 := getOrAddTeam p2.1 awt
          match addMatch p3.1 (toNewMatch m sid cid p2.2 p3.2 src) with
          | none => p3.1
          | some (db4, mid) =>
            if truthyOptInt m.home_possession then
              if ht == "Ipswich Town" then
                addMatchStatistics db4 mid m.home_possession
                  m.away_possession m.home_shots m.away_shots
              else
                addMatchStatistics db4 mid m.away_possession
                  m.home_possession m.away_shots m.home_shots
            else db4
        else db1
      | _, _ => db1

/-- CurrentSeasonFetcher._store_match (lines 124-219).  The season key is
always present in a parser-produced record, so the current-season default
of the dict.get never applies; a null season (or one whose leading year
int() cannot parse) raises inside the try block and the record is skipped
with no further writes.  Note the season get-or-create runs before the
competition existence check. -/
def storeMatch (db : DB) (m : MatchRecord) (src : Source) : DB :=
  match m.season with
  | none => db
  | some sname =>
    match getSeasonId db sname with
    | some sid => storeMatchResolved db m src sid
    | none =>
      match parseSeasonStartYear sname with
      | none => db
      | some y =>
        let p := addSeason db sname (toString y ++ "-08-01")
          (toString (y + 1) ++ "-05-31")
        storeMatchResolved p.1 m src p.2

/-! ## DailyUpdater._update_match_from_api
(src/scripts/daily_update.py, lines 112-151) -/

/-- The api-id column an existing match is looked up by, per source. -/
def apiIdColumn (src : Source) (r : MatchRow) : Option String :=
  match src with
  | .thesportsdb => r.api_id_thesportsdb
  | .football_data => r.api_id_football_data

/-- DailyUpdater._update_match_from_api: a record without an api id is
ignored; otherwise the existing row is looked up by the source's api-id
column, and when found, update_match_score runs only when both scores are
non-null, followed by the statistics write when home_possession is
truthy. -/
def updateMatchFromApi (db : DB) (m : MatchRecord) (src : Source) : DB :=
  match m.api_id with
  | none => db
  | some apiId =>
    match db.matchRows.find? (fun r => apiIdColumn src r == some apiId) with
    | none => db
    | some r =>
      let db1 :=
        match m.home_score, m.away_score with
        | some hs, some as_ => updateMatchScore db r.id hs as_ m.status
        | _, _ => db
      if truthyOptInt m.home_possession then
        if m.home_team == some "Ipswich Town" then
          addMatchStatistics db1 r.id m.home_possession m.away_possession
            m.home_shots m.away_shots
        else
          addMatchStatistics db1 r.id m.away_possession m.home_possession
            m.away_shots m.home_shots
      else db1



/-! ## Concrete fixtures used by counterexamples and witnesses -/

/-- A store already holding the current season, one competition and both
teams of the fixtures below, with no matches yet. -/
def db0 : DB :=
  { seasons := [{ id := 1, season_name := "2025/26",
                  start_date := "2025-08-01", end_date := "2026-05-31" }]
    teams := [{ id := 1, team_name := "Ipswich Town", country := "England" },
              { id := 2, team_name := "Norwich City", country := "England" }]
    competitions := [{ id := 1, name := "Championship" }]
    matchRows := []
    stats := []
    seasonSeq := 2
    teamSeq := 3
    matchSeq := 1
    clock := 0 }

/-- A raw TheSportsDB event carrying a home score but no away score. -/
def oneSidedEvent : Event :=
  { idEvent := some "777"
    dateEvent := some "2025-09-01"
    strHomeTeam := some "Ipswich Town"
    strAwayTeam := some "Norwich City"
    intHomeScore := some "2"
    strLeague := some "Championship"
    strSeason := some "2025/26" }

/-- A canonical record with no provider identifier and no date (both
fields null in the raw event), but a resolvable season, competition and
team pair. -/
def noKeyRecord : MatchRecord :=
  { season := some "2025/26"
    competition := some "Championship"
    home_team := some "Ipswich Town"
    away_team := some "Norwich City"
    status := "scheduled" }

/-- A canonical record whose season is new and whose competition does not
exist in the store. -/
def unknownCompRecord : MatchRecord :=
  { api_id := some "888"
    match_date := some "2026-08-15"
    season := some "2026/27"
    competition := some "FA Cup"
    home_team := some "Ipswich Town"
    away_team := some "Norwich City"
    status := "scheduled" }

/-! ## Claim C3: throttling retry discipline -/

/-- C3 counterexample: after two consecutive throttling signals the
fetcher does not surface a transport failure — it sleeps twice and issues
a third attempt, which here succeeds. -/
theorem c3_counterexample :
    makeRequest [.throttle, .throttle, .ok 7] = (some 7, 120) ∧
    requestAttempts [.throttle, .throttle, .ok 7] = 3 := by
  constructor <;> rfl

/-- C3 (amended): on every throttling signal the fetcher sleeps the fixed
60-second cooldown and re-issues the identical call, without bound, until
a non-throttling outcome arrives; any other HTTP or transport failure is
surfaced immediately with no retry. -/
theorem c3_amended :
    (∀ (n v : Nat) (rest : List HttpResp),
       makeRequest (List.replicate n .throttle ++ .ok v :: rest) =
         (some v, 60 * n)) ∧
    (∀ rest : List HttpResp, makeRequest (.httpErr :: rest) = (none, 0)) ∧
    (∀ rest : List HttpResp, makeRequest (.netErr :: rest) = (none, 0)) := by
  refine ⟨?_, fun _ => rfl, fun _ => rfl⟩
  intro n v rest
  induction n with
  | zero => rfl
  | succ k ih =>
    simp only [List.replicate_succ, List.cons_append, makeRequest,
      List.append_eq, ih, Prod.mk.injEq, true_and]
    omega

/-! ## Claim C6: status mapper totality -/

/-- C6: every string of the documented Football-Data.org vocabulary maps
to one of the five canonical statuses, and every string outside that
vocabulary maps to 'scheduled'. -/
theorem c6_status_mapper_total :
    (∀ s, s ∈ fdVocabulary → mapStatus s ∈ canonicalStatuses) ∧
    (∀ s, s ∉ fdVocabulary → mapStatus s = "scheduled") := by
  constructor
  · intro s _
    exact mapStatus_mem_canonical s
  · intro s hs
    unfold mapStatus
    cases h : statusMap.find? (fun p => p.1 == s) with
    | none => rfl
    | some p =>
      have hp : p ∈ statusMap := List.mem_of_find?_eq_some h
      have hse : p.1 = s := by
        have heq := List.find?_some h
        simpa using heq
      exact absurd (hse ▸ (by fin_cases hp <;> simp [fdVocabulary])) hs

/-- C6 witness: a vocabulary string lands in the canonical set and an
out-of-vocabulary string (LIVE, which the provider does not document as a
match status) falls to the default. -/
theorem c6_status_mapper_total_witness :
    mapStatus "AWARDED" ∈ canonicalStatuses ∧ mapStatus "LIVE" = "scheduled" :=
  ⟨c6_status_mapper_total.1 "AWARDED" (by decide),
   c6_status_mapper_total.2 "LIVE" (by decide)⟩

/-! ## Claim C7: inferred status for TheSportsDB events -/

/-- The parsed, usable event date of _determine_status: the dateEvent
field when it is present, non-empty and parses. -/
def eventDate (e : Event) : Option Nat :=
  match e.dateEvent with
  | some ds => if ds ≠ "" then parseDate ds else none
  | none => none

/-- Stated from the claim's words: finished when both score fields are
present; otherwise finished when the match date is strictly before the
current date; otherwise scheduled. -/
def claimedInferredStatus (today : Nat) (e : Event) : String :=
  if e.intHomeScore.isSome ∧ e.intAwayScore.isSome then "finished"
  else if (eventDate e).any (fun d => d < today) then "finished"
  else "scheduled"

/-- C7: TheSportsDBClient._determine_status implements exactly the
claimed three-step inference. -/
theorem c7_inferred_status (today : Nat) (e : Event) :
    determineStatus today e = claimedInferredStatus today e := by
  unfold determineStatus claimedInferredStatus eventDate
  by_cases hsc : e.intHomeScore.isSome ∧ e.intAwayScore.isSome
  · simp [hsc]
  · simp only [if_neg hsc]
    cases hd : e.dateEvent with
    | none => simp
    | some ds =>
      by_cases hds : ds = ""
      · simp [hds]
      · simp only [if_neg hds, ne_eq, hds, not_false_eq_true, if_pos]
        cases hp : parseDate ds with
        | none => simp
        | some d => by_cases hlt : d < today <;> simp [hlt]

/-! ## Claim C8: season label determinism -/

/-- C8: for non-empty start and end dates the label is the start year
joined with the last two digits of the end year when the calendar years
differ, and just the start year when they agree; with both dates absent
(the empty-string defaults) the label is empty. -/
theorem c8_season_label (s e : String) (hs : s ≠ "") (he : e ≠ "") :
    (dateYear s ≠ dateYear e →
       extractSeason s e = dateYear s ++ "/" ++ (dateYear e).drop 2) ∧
    (dateYear s = dateYear e → extractSeason s e = dateYear s) ∧
    extractSeason "" "" = "" := by
  refine ⟨fun hne => ?_, fun heq => ?_, rfl⟩
  · unfold extractSeason dateYear at *
    simp [hs, he, hne]
  · unfold extractSeason dateYear at *
    simp [hs, he, heq]

/-- C8 witness: the three concrete examples of the spec. -/
theorem c8_season_label_witness :
    extractSeason "2023-08-01" "2024-05-31" = "2023/24" ∧
    extractSeason "2023-01-01" "2023-12-31" = "2023" ∧
    extractSeason "" "" = "" :=
  ⟨(c8_season_label "2023-08-01" "2024-05-31" (by decide) (by decide)).1
     (by decide),
   (c8_season_label "2023-01-01" "2023-12-31" (by decide) (by decide)).2.1
     (by decide),
   (c8_season_label "x" "x" (by decide) (by decide)).2.2⟩

/-! ## Claim C10: bounded, failure-tolerant event listing -/

/-- C10: the last/next match getters return at most count records — the
first count events of the response, in order, those whose parse
succeeded — and every failure shape (failed request, missing key, null
event list) yields the empty list instead of raising. -/
theorem c10_get_matches :
    (∀ (today count : Nat) (resp : Option TsdbEventsResp),
       (getLastMatches today resp count).length ≤ count ∧
       getNextMatches today resp count = getLastMatches today resp count) ∧
    (∀ today count, getLastMatches today none count = []) ∧
    (∀ today count (d : TsdbEventsResp), d.events = none →
       getLastMatches today (some d) count = []) ∧
    (∀ today count (d : TsdbEventsResp), d.events = some none →
       getLastMatches today (some d) count = []) ∧
    (∀ today count (d : TsdbEventsResp) (evs : List Event),
       d.events = some (some evs) →
       getLastMatches today (some d) count =
         (evs.take count).filterMap (fun e => parseEvent today e)) := by
  refine ⟨?_, fun _ _ => rfl, ?_, ?_, ?_⟩
  · intro today count resp
    refine ⟨?_, rfl⟩
    cases resp with
    | none => simp [getLastMatches, collectMatches]
    | some d =>
      cases hd : d.events with
      | none => simp [getLastMatches, collectMatches, hd]
      | some oevs =>
        cases oevs with
        | none => simp [getLastMatches, collectMatches, hd]
        | some evs =>
          have heq : getLastMatches today (some d) count =
              (evs.take count).filterMap (fun e => parseEvent today e) := by
            simp only [getLastMatches, collectMatches, hd]
          rw [heq]
          calc ((evs.take count).filterMap (fun e => parseEvent today e)).length
              ≤ (evs.take count).length := List.length_filterMap_le _ _
            _ ≤ count := List.length_take_le _ _
  · intro today count d hd
    simp only [getLastMatches, collectMatches, hd]
  · intro today count d hd
    simp only [getLastMatches, collectMatches, hd]
  · intro today count d evs hd
    simp only [getLastMatches, collectMatches, hd]

/-- An event list response holding two events. -/
def tsdbRespEx : TsdbEventsResp :=
  { events := some (some [oneSidedEvent, {}]) }

/-- C10 witness: the theorem applied at a concrete two-event response with
count one, and at the three failure shapes. -/
theorem c10_get_matches_witness :
    (getLastMatches 20250910 (some tsdbRespEx) 1).length ≤ 1 ∧
    getLastMatches 20250910 (some { events := none }) 5 = [] ∧
    getLastMatches 20250910 (some { events := some none }) 5 = [] ∧
    getLastMatches 20250910 (some tsdbRespEx) 1 =
      ([oneSidedEvent, {}].take 1).filterMap
        (fun e => parseEvent 20250910 e) :=
  ⟨(c10_get_matches.1 20250910 1 (some tsdbRespEx)).1,
   c10_get_matches.2.2.1 20250910 5 _ rfl,
   c10_get_matches.2.2.2.1 20250910 5 _ rfl,
   c10_get_matches.2.2.2.2 20250910 1 tsdbRespEx [oneSidedEvent, {}] rfl⟩

/-! ## Claim C5: a score-only update leaves every other field untouched -/

/-- C5: update_match_score rewrites only the scores, the status and the
update timestamp of its target row; every other stored field of every row
— in particular venue, referee and attendance — keeps its previous
value. -/
theorem c5_update_score_frame (db : DB) (matchId : Nat)
    (homeScore awayScore : Int) (status : String) (r : MatchRow)
    (hr : r ∈ db.matchRows) :
    ∃ r' ∈ (updateMatchScore db matchId homeScore awayScore status).matchRows,
      r'.id = r.id ∧ r'.season_id = r.season_id ∧
      r'.competition_id = r.competition_id ∧ r'.match_date = r.match_date ∧
      r'.kick_off_time = r.kick_off_time ∧ r'.home_team_id = r.home_team_id ∧
      r'.away_team_id = r.away_team_id ∧
      r'.half_time_home_score = r.half_time_home_score ∧
      r'.half_time_away_score = r.half_time_away_score ∧
      r'.venue = r.venue ∧ r'.attendance = r.attendance ∧
      r'.referee = r.referee ∧ r'.match_round = r.match_round ∧
      r'.api_id_thesportsdb = r.api_id_thesportsdb ∧
      r'.api_id_football_data = r.api_id_football_data ∧
      r'.notes = r.notes := by
  refine ⟨_, List.mem_map_of_mem (fun q =>
    if q.id == matchId then
      { q with
          home_score := some homeScore
          away_score := some awayScore
          match_status := status
          updated_at := db.clock }
    else q) hr, ?_⟩
  by_cases h : r.id == matchId <;> simp [h]

/-- A fully-populated stored match row. -/
def sampleRow : MatchRow :=
  { id := 1
    season_id := some 1
    competition_id := some 1
    match_date := some "2025-09-01"
    kick_off_time := some "15:00:00"
    home_team_id := some 1
    away_team_id := some 2
    home_score := none
    away_score := none
    half_time_home_score := none
    half_time_away_score := none
    venue := some "Portman Road"
    attendance := some 29000
    referee := some "M Oliver"
    match_status := "scheduled"
    match_round := some "5"
    api_id_thesportsdb := some "777"
    api_id_football_data := none
    notes := none
    updated_at := 0 }

/-- The store db0 with sampleRow already persisted. -/
def dbWithRow : DB := { db0 with matchRows := [sampleRow], matchSeq := 2 }

/-- C5 witness: the frame theorem applied to a concrete score update of
the stored sampleRow. -/
theorem c5_update_score_frame_witness :
    ∃ r' ∈ (updateMatchScore dbWithRow 1 2 1 "finished").matchRows,
      r'.id = sampleRow.id ∧ r'.season_id = sampleRow.season_id ∧
      r'.competition_id = sampleRow.competition_id ∧
      r'.match_date = sampleRow.match_date ∧
      r'.kick_off_time = sampleRow.kick_off_time ∧
      r'.home_team_id = sampleRow.home_team_id ∧
      r'.away_team_id = sampleRow.away_team_id ∧
      r'.half_time_home_score = sampleRow.half_time_home_score ∧
      r'.half_time_away_score = sampleRow.half_time_away_score ∧
      r'.venue = sampleRow.venue ∧ r'.attendance = sampleRow.attendance ∧
      r'.referee = sampleRow.referee ∧ r'.match_round = sampleRow.match_round ∧
      r'.api_id_thesportsdb = sampleRow.api_id_thesportsdb ∧
      r'.api_id_football_data = sampleRow.api_id_football_data ∧
      r'.notes = sampleRow.notes :=
  c5_update_score_frame dbWithRow 1 2 1 "finished" sampleRow
    (List.mem_singleton_self sampleRow)

/-! ## Claim C2: score-pair atomicity -/

/-- C2 counterexample: a TheSportsDB event supplying only a home score
parses to a one-sided score pair, and the pipeline's match upsert stores
it verbatim — the resulting Match row has home_score set and away_score
null, so a stored pair can be exactly one side null. -/
theorem c2_counterexample :
    (parseEvent 20250910 oneSidedEvent).map
      (fun m => (storeMatch db0 m .thesportsdb).matchRows.map
        (fun r => (r.home_score, r.away_score))) =
      some [(some 2, none)] := by decide

/-- C2 (amended): rows written by add_match copy the supplied score pair
verbatim — one-sided exactly when the adapter record's pair is one-sided —
while the daily updater's update_match_score path always writes both sides
non-null; no writer enforces both-or-neither atomicity on add_match's
inputs. -/
theorem c2_score_pair_verbatim :
    (∀ (db : DB) (d : NewMatch) (res : DB × Nat), addMatch db d = some res →
       ∀ r ∈ res.1.matchRows, r ∈ db.matchRows ∨
         (r.home_score = d.home_score ∧ r.away_score = d.away_score)) ∧
    (∀ (db : DB) (matchId : Nat) (homeScore awayScore : Int) (st : String),
       ∀ r ∈ (updateMatchScore db matchId homeScore awayScore st).matchRows,
         r ∈ db.matchRows ∨
           (r.home_score = some homeScore ∧ r.away_score = some awayScore)) := by
  constructor
  · intro db d res hres r hr
    unfold addMatch at hres
    by_cases hc : (db.matchRows.find? (fun q => q.id == db.matchSeq)).isSome
    · rw [if_pos hc] at hres
      cases hres
      rcases List.mem_map.mp hr with ⟨q, hq, hfq⟩
      by_cases hid : q.id == db.matchSeq
      · right
        rw [← hfq]
        simp [hid]
      · left
        rw [← hfq]
        simpa [hid] using hq
    · rw [if_neg hc] at hres
      by_cases hv : db.matchRows.any (fun q => violatesMatchKey q d)
      · rw [if_pos hv] at hres
        cases hres
      · rw [if_neg hv] at hres
        cases hres
        rcases List.mem_append.mp hr with h | h
        · exact Or.inl h
        · right
          rcases List.mem_singleton.mp h with rfl
          exact ⟨rfl, rfl⟩
  · intro db matchId homeScore awayScore st r hr
    rcases List.mem_map.mp hr with ⟨q, hq, hfq⟩
    by_cases hid : q.id == matchId
    · right
      rw [← hfq]
      simp [hid]
    · left
      rw [← hfq]
      simpa [hid] using hq

/-- The row a score update of sampleRow produces. -/
def updatedSampleRow : MatchRow :=
  { sampleRow with
      home_score := some 2
      away_score := some 1
      match_status := "finished"
      updated_at := 0 }

/-- C2 witness: the update conjunct applied to the concrete store
dbWithRow — the updated row indeed carries both scores non-null. -/
theorem c2_score_pair_verbatim_witness :
    updatedSampleRow ∈ dbWithRow.matchRows ∨
      (updatedSampleRow.home_score = some 2 ∧
       updatedSampleRow.away_score = some 1) :=
  c2_score_pair_verbatim.2 dbWithRow 1 2 1 "finished" updatedSampleRow
    (by decide)

/-! ## Claim C9: required fields of a normalized record -/

/-- The raw TheSportsDB event with every field absent or null. -/
def emptyEvent : Event := {}

/-- C9 counterexample: the empty TheSportsDB event still parses
successfully (every read is a defaulting dict.get), yielding a returned
record whose provider identifier, date and both team names are all null —
only status is populated. -/
theorem c9_counterexample :
    (parseEvent 20250910 emptyEvent).map
      (fun m => (m.api_id, m.match_date, m.home_team, m.away_team, m.status)) =
      some (none, none, none, none, "scheduled") := by decide

/-- determineStatus only ever answers finished or scheduled. -/
theorem determineStatus_mem_canonical (today : Nat) (e : Event) :
    determineStatus today e ∈ canonicalStatuses := by
  unfold determineStatus
  split
  · simp [canonicalStatuses]
  · split
    · split
      · split
        · split <;> simp [canonicalStatuses]
        · simp [canonicalStatuses]
      · simp [canonicalStatuses]
    · simp [canonicalStatuses]

/-- mapStatus applied through the None-tolerant wrapper stays canonical. -/
theorem mapStatusOpt_mem_canonical (os : Option String) :
    mapStatusOpt os ∈ canonicalStatuses := by
  cases os with
  | none => simp [mapStatusOpt, canonicalStatuses]
  | some s => exact mapStatus_mem_canonical s

/-- C9 (amended): every record either normalizer returns has a canonical
status populated; the TheSportsDB normalizer copies the provider
identifier, date and team names verbatim from the raw fields (so they are
null exactly when the raw event lacks them), and the Football-Data
normalizer always populates the provider identifier as the string
rendering of the raw id (the literal text None when the id is absent);
score fields may be null. -/
theorem c9_normalized_fields :
    (∀ (today : Nat) (e : Event) (det : Bool) (m : MatchRecord),
       parseEvent today e det = some m →
       m.status ∈ canonicalStatuses ∧ m.api_id = e.idEvent ∧
       m.match_date = e.dateEvent ∧ m.home_team = e.strHomeTeam ∧
       m.away_team = e.strAwayTeam) ∧
    (∀ (raw : FDMatchRaw) (det : Bool) (m : MatchRecord),
       parseMatch raw det = some m →
       m.status ∈ canonicalStatuses ∧
       m.api_id = some (pyStrOptInt raw.id)) := by
  constructor
  · intro today e det m hm
    cases det with
    | false =>
      simp only [parseEvent, Bool.false_eq_true, if_neg, ite_false] at hm
      cases hm
      exact ⟨determineStatus_mem_canonical today e, rfl, rfl, rfl, rfl⟩
    | true =>
      simp only [parseEvent, ite_true] at hm
      cases hm
      exact ⟨determineStatus_mem_canonical today e, rfl, rfl, rfl, rfl⟩
  · intro raw det m hm
    unfold parseMatch at hm
    iterate 14 (all_goals (try split at hm))
    all_goals cases hm
    all_goals exact ⟨mapStatusOpt_mem_canonical raw.status, rfl⟩

/-- C9 witness: the amended theorem applied at the empty event. -/
theorem c9_normalized_fields_witness :
    ({} : MatchRecord).status ∈ canonicalStatuses ∧
    ({} : MatchRecord).api_id = emptyEvent.idEvent ∧
    ({} : MatchRecord).match_date = emptyEvent.dateEvent ∧
    ({} : MatchRecord).home_team = emptyEvent.strHomeTeam ∧
    ({} : MatchRecord).away_team = emptyEvent.strAwayTeam :=
  c9_normalized_fields.1 20250910 emptyEvent false {} (by decide)

/-! ## Claim C4: skip on unknown competition -/

/-- C4 counterexample: a record whose competition has no Competition row
is skipped — zero Match rows, no team writes — but its season was new, and
the season get-or-create that runs before the competition check has
already inserted a Season row: processing the record did create a row of
another entity kind. -/
theorem c4_counterexample :
    (storeMatch db0 unknownCompRecord .thesportsdb).matchRows = [] ∧
    (storeMatch db0 unknownCompRecord .thesportsdb).teams = db0.teams ∧
    db0.seasons.length = 1 ∧
    (storeMatch db0 unknownCompRecord .thesportsdb).seasons.length = 2 := by
  refine ⟨by decide, by decide, by decide, by decide⟩

/-- addSeason only touches the seasons table (and the sequence and
clock). -/
theorem addSeason_frame (db : DB) (n sd ed : String) :
    (addSeason db n sd ed).1.matchRows = db.matchRows ∧
    (addSeason db n sd ed).1.teams = db.teams ∧
    (addSeason db n sd ed).1.stats = db.stats ∧
    (addSeason db n sd ed).1.competitions = db.competitions := by
  unfold addSeason
  cases db.seasons.find? (fun r => r.season_name == n) with
  | none => exact ⟨rfl, rfl, rfl, rfl⟩
  | some r => exact ⟨rfl, rfl, rfl, rfl⟩

/-- Competition lookup is unaffected by a season write. -/
theorem getCompetitionId_addSeason (db : DB) (n sd ed c : String) :
    getCompetitionId (addSeason db n sd ed).1 c = getCompetitionId db c := by
  unfold addSeason getCompetitionId
  cases db.seasons.find? (fun r => r.season_name == n) with
  | none => rfl
  | some r => rfl

/-- When the record's competition cannot be resolved, the post-season tail
of _store_match writes nothing. -/
theorem storeMatchResolved_comp_skip (db1 : DB) (m : MatchRecord)
    (src : Source) (sid : Nat)
    (hc : ∀ c, m.competition = some c → getCompetitionId db1 c = none) :
    storeMatchResolved db1 m src sid = db1 := by
  unfold storeMatchResolved
  cases hm : m.competition with
  | none => rfl
  | some c => simp only [hc c hm]

/-- C4 (amended): a record whose competition name has no Competition row
produces zero Match writes, zero Team writes and zero statistics writes,
with one logged warning; however the season get-or-create runs before the
competition check, so a Season row may still be created for that
record. -/
theorem c4_skip_unknown_competition (db : DB) (m : MatchRecord)
    (src : Source)
    (hc : ∀ c, m.competition = some c → getCompetitionId db c = none) :
    (storeMatch db m src).matchRows = db.matchRows ∧
    (storeMatch db m src).teams = db.teams ∧
    (storeMatch db m src).stats = db.stats := by
  unfold storeMatch
  cases hs : m.season with
  | none => exact ⟨rfl, rfl, rfl⟩
  | some sname =>
    cases hsid : getSeasonId db sname with
    | some sid =>
      simp only [hsid]
      rw [storeMatchResolved_comp_skip db m src sid hc]
      exact ⟨rfl, rfl, rfl⟩
    | none =>
      cases hy : parseSeasonStartYear sname with
      | none => simp [hsid, hy]
      | some y =>
        simp only [hsid, hy]
        have hc1 : ∀ c, m.competition = some c →
            getCompetitionId (addSeason db sname (toString y ++ "-08-01")
              (toString (y + 1) ++ "-05-31")).1 c = none := by
          intro c hmc
          rw [getCompetitionId_addSeason]
          exact hc c hmc
        rw [storeMatchResolved_comp_skip _ m src _ hc1]
        have hf := addSeason_frame db sname (toString y ++ "-08-01")
          (toString (y + 1) ++ "-05-31")
        exact ⟨hf.1, hf.2.1, hf.2.2.1⟩

/-- C4 witness: the amended theorem applied to the concrete store and
record of the counterexample. -/
theorem c4_skip_unknown_competition_witness :
    (storeMatch db0 unknownCompRecord .thesportsdb).matchRows =
      db0.matchRows ∧
    (storeMatch db0 unknownCompRecord .thesportsdb).teams = db0.teams ∧
    (storeMatch db0 unknownCompRecord .thesportsdb).stats = db0.stats :=
  c4_skip_unknown_competition db0 unknownCompRecord .thesportsdb
    (by intro c h; injection h with h1; subst h1; decide)

/-! ## Claim C1: idempotence of the match upsert -/

/-- When no stored id reaches the sequence value and no natural-key
constraint is violated, add_match inserts a fresh row. -/
theorem addMatch_insert (db : DB) (d : NewMatch)
    (hfresh : ∀ r ∈ db.matchRows, r.id < db.matchSeq)
    (hnoc : ∀ r ∈ db.matchRows, violatesMatchKey r d = false) :
    addMatch db d =
      some ({ db with
          matchRows := db.matchRows ++ [mkMatchRow db d]
          matchSeq := db.matchSeq + 1
          clock := db.clock + 1 }, db.matchSeq) := by
  unfold addMatch
  have h1 : db.matchRows.find? (fun r => r.id == db.matchSeq) = none := by
    rw [List.find?_eq_none]
    intro r hr
    have := hfresh r hr
    simp only [beq_iff_eq]
    omega
  have h2 : db.matchRows.any (fun r => violatesMatchKey r d) = false := by
    rw [List.any_eq_false]
    intro r hr
    simp [hnoc r hr]
  simp [h1, h2]

/-- When an existing row collides with the record on a natural key, the
INSERT raises (the ON CONFLICT (id) arbiter does not cover it) and the
statement is rolled back. -/
theorem addMatch_keyviolation (db : DB) (d : NewMatch)
    (hfresh : ∀ r ∈ db.matchRows, r.id < db.matchSeq)
    (hviol : ∃ r ∈ db.matchRows, violatesMatchKey r d = true) :
    addMatch db d = none := by
  unfold addMatch
  have h1 : db.matchRows.find? (fun r => r.id == db.matchSeq) = none := by
    rw [List.find?_eq_none]
    intro r hr
    have := hfresh r hr
    simp only [beq_iff_eq]
    omega
  have h2 : db.matchRows.any (fun r => violatesMatchKey r d) = true :=
    List.any_eq_true.mpr hviol
  simp [h1, h2]

/-- Evaluation of the post-season tail of _store_match when competition
and both teams resolve and the record carries no possession statistic:
it reduces to the add_match call. -/
theorem storeMatchResolved_eval (db1 : DB) (m : MatchRecord) (src : Source)
    (sid : Nat) (cn ht awt : String) (cid hid aid : Nat)
    (hcn : m.competition = some cn) (hcid : getCompetitionId db1 cn = some cid)
    (hht : m.home_team = some ht) (hawt : m.away_team = some awt)
    (hne : ht ≠ "" ∧ awt ≠ "")
    (hhid : getTeamId db1 ht = some hid) (haid : getTeamId db1 awt = some aid)
    (hposs : truthyOptInt m.home_possession = false) :
    storeMatchResolved db1 m src sid =
      match addMatch db1 (toNewMatch m sid cid hid aid src) with
      | none => db1
      | some (db4, _) => db4 := by
  unfold storeMatchResolved
  simp only [hcn, hcid, hht, hawt, if_pos hne]
  unfold getOrAddTeam
  simp only [hhid, haid]
  cases haddm : addMatch db1 (toNewMatch m sid cid hid aid src) with
  | none => simp [haddm]
  | some p =>
    cases p with
    | mk db4 mid => simp [haddm, hposs]

/-- A freshly inserted row collides with its own values tuple on the
provider-identifier natural key. -/
theorem violatesMatchKey_self_insert (db : DB) (d : NewMatch)
    (h : d.api_id_thesportsdb.isSome ∨ d.api_id_football_data.isSome) :
    violatesMatchKey (mkMatchRow db d) d = true := by
  unfold violatesMatchKey mkMatchRow
  rcases h with h | h
  · simp [h]
  · simp [h]

/-- The values tuple built from a record with a provider identifier
carries that identifier in the column of its source. -/
theorem toNewMatch_apiId (m : MatchRecord) (sid cid hid aid : Nat)
    (src : Source) (hapi : m.api_id.isSome) :
    (toNewMatch m sid cid hid aid src).api_id_thesportsdb.isSome ∨
    (toNewMatch m sid cid hid aid src).api_id_football_data.isSome := by
  cases src with
  | thesportsdb => exact Or.inl hapi
  | football_data => exact Or.inr hapi

/-- A second application of _store_match over a store already holding a
row that collides with the record's values tuple changes nothing: the
duplicate INSERT raises and rolls back, and every earlier step is a pure
lookup. -/
theorem storeMatch_second_identity (db1 : DB) (m : MatchRecord)
    (src : Source) (sn cn ht awt : String) (sid cid hid aid : Nat)
    (hsn : m.season = some sn)
    (hsid : getSeasonId db1 sn = some sid)
    (hcn : m.competition = some cn)
    (hcid : getCompetitionId db1 cn = some cid)
    (hht : m.home_team = some ht) (hawt : m.away_team = some awt)
    (hne : ht ≠ "" ∧ awt ≠ "")
    (hhid : getTeamId db1 ht = some hid) (haid : getTeamId db1 awt = some aid)
    (hposs : truthyOptInt m.home_possession = false)
    (hfresh : ∀ r ∈ db1.matchRows, r.id < db1.matchSeq)
    (hviol : ∃ r ∈ db1.matchRows,
       violatesMatchKey r (toNewMatch m sid cid hid aid src) = true) :
    storeMatch db1 m src = db1 := by
  unfold storeMatch
  simp only [hsn, hsid]
  rw [storeMatchResolved_eval db1 m src sid cn ht awt cid hid aid
    hcn hcid hht hawt hne hhid haid hposs]
  rw [addMatch_keyviolation db1 _ hfresh hviol]

/-- C1 counterexample: a canonical record carrying neither a provider
match identifier nor a date (so that no modelled natural-key constraint
can fire — SQL nulls never collide) is inserted twice by two applications
of _store_match: two Match rows, not one.  The ON CONFLICT (id) clause of
add_match never fires because the INSERT does not supply id. -/
theorem c1_counterexample :
    ((storeMatch (storeMatch db0 noKeyRecord .thesportsdb)
        noKeyRecord .thesportsdb).matchRows.map (fun r => r.id)) = [1, 2] := by
  decide

/-- C1 (amended): for a record carrying its provider's match identifier
(and resolvable season, competition and teams, and no statistics payload),
the first application inserts one row and the second application is the
identity: the duplicate INSERT violates the (spec-modelled) natural-key
uniqueness and is rolled back as a logged error, so exactly one Match row
with unchanged field values remains — not via the dead ON CONFLICT (id)
update path. -/
theorem c1_duplicate_insert_blocked (db : DB) (m : MatchRecord)
    (src : Source) (sn cn ht awt : String) (sid cid hid aid : Nat)
    (hsn : m.season = some sn)
    (hsid : getSeasonId db sn = some sid)
    (hcn : m.competition = some cn)
    (hcid : getCompetitionId db cn = some cid)
    (hht : m.home_team = some ht) (hawt : m.away_team = some awt)
    (hne : ht ≠ "" ∧ awt ≠ "")
    (hhid : getTeamId db ht = some hid) (haid : getTeamId db awt = some aid)
    (hposs : truthyOptInt m.home_possession = false)
    (hapi : m.api_id.isSome)
    (hfresh : ∀ r ∈ db.matchRows, r.id < db.matchSeq)
    (hnoc : ∀ r ∈ db.matchRows,
       violatesMatchKey r (toNewMatch m sid cid hid aid src) = false) :
    (storeMatch db m src).matchRows =
      db.matchRows ++ [mkMatchRow db (toNewMatch m sid cid hid aid src)] ∧
    storeMatch (storeMatch db m src) m src = storeMatch db m src := by
  have hstore1 : storeMatch db m src =
      { db with
          matchRows := db.matchRows ++
            [mkMatchRow db (toNewMatch m sid cid hid aid src)]
          matchSeq := db.matchSeq + 1
          clock := db.clock + 1 } := by
    unfold storeMatch
    simp only [hsn, hsid]
    rw [storeMatchResolved_eval db m src sid cn ht awt cid hid aid
      hcn hcid hht hawt hne hhid haid hposs]
    rw [addMatch_insert db _ hfresh hnoc]
  refine ⟨by rw [hstore1], ?_⟩
  rw [hstore1]
  refine storeMatch_second_identity _ m src sn cn ht awt sid cid hid aid
    hsn ?_ hcn ?_ hht hawt hne ?_ ?_ hposs ?_ ?_
  · exact hsid
  · exact hcid
  · exact hhid
  · exact haid
  · intro r hr
    rcases List.mem_append.mp hr with h | h
    · have := hfresh r h
      show r.id < db.matchSeq + 1
      omega
    · rcases List.mem_singleton.mp h with rfl
      show db.matchSeq < db.matchSeq + 1
      omega
  · exact ⟨mkMatchRow db (toNewMatch m sid cid hid aid src),
      List.mem_append_right _ (List.mem_singleton_self _),
      violatesMatchKey_self_insert db _ (toNewMatch_apiId m sid cid hid aid src hapi)⟩

/-- A canonical record carrying its provider identifier, against the
fixtures of db0. -/
def keyedRecord : MatchRecord :=
  { api_id := some "555"
    match_date := some "2025-09-01"
    season := some "2025/26"
    competition := some "Championship"
    home_team := some "Ipswich Town"
    away_team := some "Norwich City"
    home_score := some 2
    away_score := some 1
    status := "finished" }

/-- C1 witness: the amended theorem applied to db0 and keyedRecord. -/
theorem c1_duplicate_insert_blocked_witness :
    (storeMatch db0 keyedRecord .thesportsdb).matchRows =
      db0.matchRows ++
        [mkMatchRow db0 (toNewMatch keyedRecord 1 1 1 2 .thesportsdb)] ∧
    storeMatch (storeMatch db0 keyedRecord .thesportsdb)
        keyedRecord .thesportsdb =
      storeMatch db0 keyedRecord .thesportsdb :=
  c1_duplicate_insert_blocked db0 keyedRecord .thesportsdb
    "2025/26" "Championship" "Ipswich Town" "Norwich City" 1 1 1 2
    rfl (by decide) rfl (by decide) rfl rfl ⟨by decide, by decide⟩
    (by decide) (by decide) rfl rfl
    (fun r hr => nomatch hr) (fun r hr => nomatch hr)

end IpswichDB
